import Mathlib

/-!
Verification of the Architecture Graph Engine (src/index.tsx).

The engine validates a directed graph of typed architecture components
(ports, adapters, use cases, controllers, entities) and emits skeletal
source code.  All definitions below are shallow embeddings of the
TypeScript source: JavaScript strings become `String`, arrays become
`List`, `Set`/`Map` based bookkeeping becomes explicit list-passing,
`undefined`-able lookups become `Option`, and the recursive DFS
procedures take an explicit fuel argument (large enough that it is never
exhausted on the graphs the theorems evaluate).  The wall clock read by
the code generators (`new Date().toISOString()`) is made an explicit
`now : String` argument.  Methods of the stateless adapter classes
become top-level functions with the same names.
-/

/-- `NodeType` from src/index.tsx. -/
inductive NodeType where
  | port
  | adapter
  | usecase
  | controller
  | entity
deriving DecidableEq, Repr

/-- `EdgeType` from src/index.tsx. -/
inductive EdgeType where
  | dependency
  | implements
deriving DecidableEq, Repr

/-- `LayerType` from src/index.tsx. -/
inductive LayerType where
  | domain
  | application
  | infrastructure
  | interface
deriving DecidableEq, Repr

/-- `GraphNode` from src/index.tsx.  `position` is a layout coordinate never
read by validation, metrics or code generation and is omitted. -/
structure GraphNode where
  id : String
  name : String
  type : NodeType
  layer : LayerType
  description : Option String := none
deriving DecidableEq, Repr

/-- `GraphEdge` from src/index.tsx. -/
structure GraphEdge where
  id : String
  source : String
  target : String
  type : EdgeType
  label : Option String := none
deriving DecidableEq, Repr

/-- `ArchitectureGraph` from src/index.tsx.  `metadata` (version/timestamps)
is never read by validation, metrics or code generation and is omitted. -/
structure ArchitectureGraph where
  nodes : List GraphNode
  edges : List GraphEdge
deriving DecidableEq, Repr

/-- The error-type tag of `ValidationError` from src/index.tsx. -/
inductive ErrorType where
  | layer_violation
  | circular_dependency
  | validation_error
  | naming_violation
deriving DecidableEq, Repr

/-- The severity tag of `ValidationError` from src/index.tsx. -/
inductive Severity where
  | error
  | warning
deriving DecidableEq, Repr

/-- `ValidationError` from src/index.tsx. -/
structure ValidationError where
  id : String
  type : ErrorType
  message : String
  nodeId : Option String := none
  edgeId : Option String := none
  severity : Severity
deriving DecidableEq, Repr

/-- `ValidationResult` from src/index.tsx. -/
structure ValidationResult where
  isValid : Bool
  errors : List ValidationError
  warnings : List ValidationError
deriving DecidableEq, Repr

/-- `ArchitectureMetrics` from src/index.tsx.  `complexity` is a JavaScript
number division; it is exact rational arithmetic here. -/
structure ArchitectureMetrics where
  totalNodes : Nat
  totalEdges : Nat
  complexity : Rat
  maxDepth : Nat
  cycleCount : Nat
  layerViolations : Nat
deriving DecidableEq, Repr

/-- Rendering of a `NodeType` as the string the source interpolates. -/
def NodeType.str : NodeType → String
  | .port => "port"
  | .adapter => "adapter"
  | .usecase => "usecase"
  | .controller => "controller"
  | .entity => "entity"

/-- Rendering of a `LayerType` as the string the source interpolates. -/
def LayerType.str : LayerType → String
  | .domain => "domain"
  | .application => "application"
  | .infrastructure => "infrastructure"
  | .interface => "interface"

/-- `graph.nodes.find(n => n.id === id)`. -/
def findNode (g : ArchitectureGraph) (id : String) : Option GraphNode :=
  g.nodes.find? (fun n => n.id == id)

/-- `ArchitectureValidationAdapter.getExpectedLayer` (src/index.tsx:369). -/
def getExpectedLayer : NodeType → LayerType
  | .entity => .domain
  | .port => .domain
  | .usecase => .application
  | .adapter => .infrastructure
  | .controller => .interface

/-- `ArchitectureValidationAdapter.validateNode` (src/index.tsx:287): suffix
naming warnings for port/adapter/usecase and the layer-consistency error,
pushed in source order. -/
def validateNode (node : GraphNode) : List ValidationError :=
  (if node.type == NodeType.port && !(node.name.endsWith "Port") then
    [{ id := "port_naming_" ++ node.id, type := ErrorType.naming_violation,
       message := "Port names should end with \"Port\"",
       nodeId := some node.id, severity := Severity.warning }]
   else []) ++
  (if node.type == NodeType.adapter && !(node.name.endsWith "Adapter") then
    [{ id := "adapter_naming_" ++ node.id, type := ErrorType.naming_violation,
       message := "Adapter names should end with \"Adapter\"",
       nodeId := some node.id, severity := Severity.warning }]
   else []) ++
  (if node.type == NodeType.usecase && !(node.name.endsWith "UseCase") then
    [{ id := "usecase_naming_" ++ node.id, type := ErrorType.naming_violation,
       message := "Use case names should end with \"UseCase\"",
       nodeId := some node.id, severity := Severity.warning }]
   else []) ++
  (if node.layer != getExpectedLayer node.type then
    [{ id := "layer_consistency_" ++ node.id, type := ErrorType.layer_violation,
       message := node.type.str ++ " should be in " ++ (getExpectedLayer node.type).str ++
         " layer, not " ++ node.layer.str,
       nodeId := some node.id, severity := Severity.error }]
   else [])

/-- The allowed-dependency table `allowedDeps` (src/index.tsx:340). -/
def allowedDeps : LayerType → List LayerType
  | .domain => []
  | .application => [.domain]
  | .infrastructure => [.domain, .application]
  | .interface => [.application, .domain]

/-- Body of the `forEach` in
`ArchitectureValidationAdapter.checkLayerViolations` (src/index.tsx:347):
the at-most-one violation an edge contributes. -/
def edgeLayerViolation (g : ArchitectureGraph) (edge : GraphEdge) :
    Option ValidationError :=
  if edge.type != EdgeType.dependency then none
  else
    match findNode g edge.source, findNode g edge.target with
    | some src, some dst =>
      if dst.layer ∈ allowedDeps src.layer then none
      else
        some { id := "layer_violation_" ++ edge.id, type := ErrorType.layer_violation,
               message := "Invalid dependency: " ++ src.layer.str ++ " ‚Üí " ++
                 dst.layer.str ++ " (" ++ src.name ++ " ‚Üí " ++ dst.name ++ ")",
               edgeId := some edge.id, severity := Severity.error }
    | _, _ => none

/-- `ArchitectureValidationAdapter.checkLayerViolations` (src/index.tsx:336). -/
def checkLayerViolations (g : ArchitectureGraph) : List ValidationError :=
  g.edges.filterMap (edgeLayerViolation g)

/-- The adjacency map built at the top of
`ArchitectureValidationAdapter.detectCycles` (src/index.tsx:236) and of
`MetricsAdapter.calculateMaxDepth` (src/index.tsx:641): every node id is
given an entry, then the target of every `dependency` edge whose source
has an entry is appended; a key absent from the map reads as `[]`. -/
def adjOf (g : ArchitectureGraph) (node : String) : List String :=
  if g.nodes.any (fun n => n.id == node) then
    (g.edges.filter (fun e => e.type == EdgeType.dependency && e.source == node)).map
      (fun e => e.target)
  else []

/-- The mutable state threaded through the DFS of `detectCycles`:
the global `visited` set and the accumulated `cycles`. -/
structure DfsState where
  visited : List String
  cycles : List (List String)
deriving DecidableEq, Repr

/-- The inner `dfs` of `ArchitectureValidationAdapter.detectCycles`
(src/index.tsx:253).  `recStack` is the recursion stack: the source
`add`s the node before the neighbor loop and `delete`s it after, which
is exactly passing `node :: recStack` to the recursive calls.  `fuel`
only bounds the recursion; callers supply more than the DFS can use. -/
def dfsCycles (adj : String → List String) (fuel : Nat) (node : String)
    (path recStack : List String) (s : DfsState) : DfsState :=
  match fuel with
  | 0 => s
  | Nat.succ fuel2 =>
    if node ∈ recStack then
      match path.findIdx? (fun x => x == node) with
      | some i => { s with cycles := s.cycles ++ [path.drop i ++ [node]] }
      | none => s
    else if node ∈ s.visited then s
    else
      let s1 : DfsState := { s with visited := s.visited ++ [node] }
      (adj node).foldl
        (fun acc nb => dfsCycles adj fuel2 nb (path ++ [node]) (node :: recStack) acc) s1

/-- `ArchitectureValidationAdapter.detectCycles` (src/index.tsx:235). -/
def detectCycles (g : ArchitectureGraph) : List (List String) :=
  let fuel := g.nodes.length + g.edges.length + 1
  (g.nodes.foldl
    (fun s n => if n.id ∈ s.visited then s else dfsCycles (adjOf g) fuel n.id [] [] s)
    { visited := [], cycles := [] }).cycles

/-- The cycle errors pushed by `validateGraph` (src/index.tsx:187): one
`circular_dependency` error per detected cycle, indexed in order. -/
def cycleErrors (g : ArchitectureGraph) : List ValidationError :=
  (detectCycles g).enum.map (fun pair =>
    { id := "cycle_" ++ toString pair.1, type := ErrorType.circular_dependency,
      message := "Circular dependency detected: " ++ String.intercalate " ‚Üí " pair.2,
      severity := Severity.error })

/-- Body of the self-loop `forEach` of `validateGraph` (src/index.tsx:204):
the at-most-one `validation_error` an edge with `source === target`
contributes. -/
def selfLoopCheck (edge : GraphEdge) : Option ValidationError :=
  if edge.source == edge.target then
    some { id := "self_" ++ edge.id, type := ErrorType.validation_error,
           message := "Self-referencing edge detected",
           edgeId := some edge.id, severity := Severity.error }
  else none

/-- The self-loop errors pushed by `validateGraph` (src/index.tsx:204):
one `validation_error` per edge with `source === target`. -/
def selfLoopErrors (g : ArchitectureGraph) : List ValidationError :=
  g.edges.filterMap selfLoopCheck

/-- `ArchitectureValidationAdapter.validateGraph` (src/index.tsx:175).
Errors and warnings are accumulated in source order: layer violations,
cycles, per-node checks, self-loops.  Nothing in the translated body can
throw, so the `catch` branch of the source is unreachable here. -/
def validateGraph (g : ArchitectureGraph) : ValidationResult :=
  let layerViolations := checkLayerViolations g
  let errors1 := layerViolations.filter (fun v => v.severity == Severity.error)
  let warnings1 := layerViolations.filter (fun v => v.severity == Severity.warning)
  let nodeResults := g.nodes.map validateNode
  let errors2 := (nodeResults.map (fun l => l.filter (fun e => e.severity == Severity.error))).flatten
  let warnings2 := (nodeResults.map (fun l => l.filter (fun e => e.severity == Severity.warning))).flatten
  let errors := errors1 ++ cycleErrors g ++ errors2 ++ selfLoopErrors g
  let warnings := warnings1 ++ warnings2
  { isValid := errors.length == 0, errors := errors, warnings := warnings }

/-- The errors of a full `validateGraph` pass that carry a given edge id. -/
def errorsForEdge (g : ArchitectureGraph) (eid : String) : List ValidationError :=
  (validateGraph g).errors.filter (fun err => err.edgeId == some eid)

/-- The mutable state of the DFS inside `MetricsAdapter.calculateMaxDepth`:
the global `visited` set and the running maximum. -/
structure DepthState where
  visited : List String
  maxDepth : Nat
deriving DecidableEq, Repr

/-- The inner `dfs` of `MetricsAdapter.calculateMaxDepth`
(src/index.tsx:656): mark the node visited, fold the running maximum
with the current depth, recurse on dependency neighbors at depth+1. -/
def dfsDepth (adj : String → List String) (fuel : Nat) (node : String)
    (depth : Nat) (s : DepthState) : DepthState :=
  match fuel with
  | 0 => s
  | Nat.succ fuel2 =>
    if node ∈ s.visited then s
    else
      let s1 : DepthState :=
        { visited := s.visited ++ [node], maxDepth := max s.maxDepth depth }
      (adj node).foldl (fun acc nb => dfsDepth adj fuel2 nb (depth + 1) acc) s1

/-- `MetricsAdapter.calculateMaxDepth` (src/index.tsx:640). -/
def calculateMaxDepth (g : ArchitectureGraph) : Nat :=
  let fuel := g.nodes.length + g.edges.length + 1
  (g.nodes.foldl
    (fun s n => if n.id ∈ s.visited then s else dfsDepth (adjOf g) fuel n.id 0 s)
    { visited := [], maxDepth := 0 }).maxDepth

/-- `MetricsAdapter.calculateMetrics` (src/index.tsx:621). -/
def calculateMetrics (g : ArchitectureGraph) : ArchitectureMetrics :=
  let cycles := detectCycles g
  let validationResult := validateGraph g
  { totalNodes := g.nodes.length,
    totalEdges := g.edges.length,
    complexity :=
      if g.nodes.length > 0 then (g.edges.length : Rat) / (g.nodes.length : Rat) else 0,
    maxDepth := calculateMaxDepth g,
    cycleCount := cycles.length,
    layerViolations :=
      (validationResult.errors.filter (fun e => e.type == ErrorType.layer_violation)).length }

/-- JavaScript `Array.prototype.join(sep)` on a list of strings. -/
def joinSep (sep : String) : List String → String
  | [] => ""
  | [s] => s
  | s :: b :: rest => s ++ sep ++ joinSep sep (b :: rest)

/-- `TypeScriptCodeGenerationAdapter.toCamelCase` (src/index.tsx:604):
lower-case the first character, keep the rest. -/
def toCamelCase (s : String) : String :=
  match s.data with
  | [] => ""
  | c :: rest => String.mk (c.toLower :: rest)

/-- `TypeScriptCodeGenerationAdapter.getNodeColor` (src/index.tsx:608). -/
def getNodeColor : NodeType → String
  | .port => "lightcoral"
  | .adapter => "lightgreen"
  | .usecase => "lightblue"
  | .controller => "lightyellow"
  | .entity => "plum"

/-- `TypeScriptCodeGenerationAdapter.getUseCaseDependencies`
(src/index.tsx:583): the existing target nodes of the use case's
outgoing `dependency` edges, in edge-list order (not filtered by type). -/
def getUseCaseDependencies (usecase : GraphNode) (g : ArchitectureGraph) :
    List GraphNode :=
  (g.edges.filter (fun e => e.source == usecase.id && e.type == EdgeType.dependency)).filterMap
    (fun e => findNode g e.target)

/-- `TypeScriptCodeGenerationAdapter.getImplementedPorts` (src/index.tsx:590). -/
def getImplementedPorts (adapter : GraphNode) (g : ArchitectureGraph) :
    List GraphNode :=
  (g.edges.filter (fun e => e.source == adapter.id && e.type == EdgeType.implements)).filterMap
    (fun e => findNode g e.target)

/-- `TypeScriptCodeGenerationAdapter.getControllerDependencies`
(src/index.tsx:597). -/
def getControllerDependencies (controller : GraphNode) (g : ArchitectureGraph) :
    List GraphNode :=
  (g.edges.filter (fun e => e.source == controller.id && e.type == EdgeType.dependency)).filterMap
    (fun e => findNode g e.target)

/-- Modelled from the spec, for refinement comparison with
`getUseCaseDependencies`: "the set of nodes reachable via outgoing
`dependency` edges from this node **that are of type `port`**, in the
order those edges appear in the graph's edge list". -/
def specUseCasePortDeps (usecase : GraphNode) (g : ArchitectureGraph) :
    List GraphNode :=
  (g.edges.filter (fun e => e.source == usecase.id && e.type == EdgeType.dependency)).filterMap
    (fun e =>
      match findNode g e.target with
      | some n => if n.type == NodeType.port then some n else none
      | none => none)

/-- The `constructorParams` string computed for a use case
(src/index.tsx:446). -/
def useCaseConstructorParams (usecase : GraphNode) (g : ArchitectureGraph) : String :=
  joinSep ", " ((getUseCaseDependencies usecase g).map
    (fun dep => "private " ++ toCamelCase dep.name ++ ": " ++ dep.name))

/-- The bar of 76 equals signs of the source's section banner lines. -/
def bannerBar : String := String.mk (List.replicate 76 '=')

/-- The section banner lines pushed before each nonempty node-type
section of the TypeScript output (src/index.tsx:401 etc.). -/
def tsSectionHeader (title : String) : List String :=
  ["// " ++ bannerBar,
   "// " ++ title,
   "// " ++ bannerBar,
   ""]

/-- The lines emitted for one port interface (src/index.tsx:406). -/
def tsPortParts (port : GraphNode) : List String :=
  ["/**",
   " * " ++ (port.description.getD ("Port interface for " ++ port.name)),
   " */",
   "export interface " ++ port.name ++ " \x7b",
   "  // TODO: Add method signatures",
   "\x7d",
   ""]

/-- The lines emitted for one entity class (src/index.tsx:425). -/
def tsEntityParts (entity : GraphNode) : List String :=
  ["/**",
   " * " ++ (entity.description.getD ("Domain entity: " ++ entity.name)),
   " */",
   "export class " ++ entity.name ++ " \x7b",
   "  // TODO: Add properties and methods",
   "\x7d",
   ""]

/-- The lines emitted for one use-case class (src/index.tsx:444). -/
def tsUseCaseParts (g : ArchitectureGraph) (usecase : GraphNode) : List String :=
  let dependencies := getUseCaseDependencies usecase g
  ["/**",
   " * " ++ (usecase.description.getD ("Use case: " ++ usecase.name)),
   " */",
   "export class " ++ usecase.name ++ " \x7b"] ++
  (if dependencies.length > 0 then
    ["  constructor(" ++ useCaseConstructorParams usecase g ++ ") \x7b\x7d", ""]
   else []) ++
  ["  async execute(): Promise<void> \x7b",
   "    // TODO: Implement use case logic",
   "  \x7d",
   "\x7d",
   ""]

/-- The lines emitted for one adapter class (src/index.tsx:472). -/
def tsAdapterParts (g : ArchitectureGraph) (adapter : GraphNode) : List String :=
  let implementedPorts := getImplementedPorts adapter g
  let implementsClause :=
    if implementedPorts.length > 0 then
      " implements " ++ joinSep ", " (implementedPorts.map (fun p => p.name))
    else ""
  ["/**",
   " * " ++ (adapter.description.getD ("Adapter implementation: " ++ adapter.name)),
   " */",
   "export class " ++ adapter.name ++ implementsClause ++ " \x7b",
   "  // TODO: Implement adapter methods",
   "\x7d",
   ""]

/-- The lines emitted for one controller class (src/index.tsx:496). -/
def tsControllerParts (g : ArchitectureGraph) (controller : GraphNode) : List String :=
  let dependencies := getControllerDependencies controller g
  let constructorParams := joinSep ", " (dependencies.map
    (fun dep => "private " ++ toCamelCase dep.name ++ ": " ++ dep.name))
  ["/**",
   " * " ++ (controller.description.getD ("Controller: " ++ controller.name)),
   " */",
   "export class " ++ controller.name ++ " \x7b"] ++
  (if dependencies.length > 0 then
    ["  constructor(" ++ constructorParams ++ ") \x7b\x7d", ""]
   else []) ++
  ["  // TODO: Add controller methods",
   "\x7d",
   ""]

/-- Every line of the TypeScript output after the two header lines and
the blank line that follows them (src/index.tsx:395): none of these
mention the generation timestamp. -/
def tsRestParts (g : ArchitectureGraph) : List String :=
  ["// Domain imports", ""] ++
  (let ports := g.nodes.filter (fun n => n.type == NodeType.port)
   if ports.length > 0 then
     tsSectionHeader "PORTS (Domain Layer)" ++ (ports.map tsPortParts).flatten
   else []) ++
  (let entities := g.nodes.filter (fun n => n.type == NodeType.entity)
   if entities.length > 0 then
     tsSectionHeader "ENTITIES (Domain Layer)" ++ (entities.map tsEntityParts).flatten
   else []) ++
  (let usecases := g.nodes.filter (fun n => n.type == NodeType.usecase)
   if usecases.length > 0 then
     tsSectionHeader "USE CASES (Application Layer)" ++ (usecases.map (tsUseCaseParts g)).flatten
   else []) ++
  (let adapters := g.nodes.filter (fun n => n.type == NodeType.adapter)
   if adapters.length > 0 then
     tsSectionHeader "ADAPTERS (Infrastructure Layer)" ++ (adapters.map (tsAdapterParts g)).flatten
   else []) ++
  (let controllers := g.nodes.filter (fun n => n.type == NodeType.controller)
   if controllers.length > 0 then
     tsSectionHeader "CONTROLLERS (Interface Layer)" ++ (controllers.map (tsControllerParts g)).flatten
   else [])

/-- `TypeScriptCodeGenerationAdapter.generateTypeScript` (src/index.tsx:382).
`now` is the value of the `new Date().toISOString()` the source reads at
line 391; everything else is a function of the graph alone. -/
def generateTypeScript (g : ArchitectureGraph) (now : String) : String :=
  joinSep "\n"
    ("// Generated by Graph-First Programming IDE" ::
     ("// Generated at: " ++ now) ::
     "" ::
     tsRestParts g)

/-- The lines emitted for one port protocol of the Python output
(src/index.tsx:540). -/
def pyPortParts (port : GraphNode) : List String :=
  ["@runtime_checkable",
   "class " ++ port.name ++ "(Protocol):",
   "    \"\"\"" ++ (port.description.getD ("Port interface for " ++ port.name)) ++ "\"\"\"",
   "    # TODO: Add method signatures",
   "    pass",
   ""]

/-- Every line of the Python output after the two header lines
(src/index.tsx:527): none of these mention the generation timestamp. -/
def pyRestParts (g : ArchitectureGraph) : List String :=
  ["from abc import ABC, abstractmethod",
   "from typing import Protocol, runtime_checkable",
   ""] ++
  (let ports := g.nodes.filter (fun n => n.type == NodeType.port)
   if ports.length > 0 then
     ["# " ++ bannerBar,
      "# PORTS (Domain Layer)",
      "# " ++ bannerBar,
      ""] ++ (ports.map pyPortParts).flatten
   else [])

/-- `TypeScriptCodeGenerationAdapter.generatePython` (src/index.tsx:517).
`now` is the wall-clock string read at line 526. -/
def generatePython (g : ArchitectureGraph) (now : String) : String :=
  joinSep "\n"
    ("# Generated by Graph-First Programming IDE" ::
     ("# Generated at: " ++ now) ::
     "" ::
     pyRestParts g)

/-- `TypeScriptCodeGenerationAdapter.generateDependencyGraph`
(src/index.tsx:553): DOT output; reads no clock. -/
def generateDependencyGraph (g : ArchitectureGraph) : String :=
  joinSep "\n"
    (["digraph ArchitectureGraph \x7b",
      "  rankdir=TB;",
      "  node [shape=box, style=filled];",
      ""] ++
     g.nodes.map (fun node =>
       "  \"" ++ node.name ++ "\" [fillcolor=\"" ++ getNodeColor node.type ++
       "\", label=\"" ++ node.name ++ "\\n(" ++ node.type.str ++ ")\"];") ++
     [""] ++
     g.edges.filterMap (fun edge =>
       match findNode g edge.source, findNode g edge.target with
       | some src, some dst =>
         some ("  \"" ++ src.name ++ "\" -> \"" ++ dst.name ++ "\" [style=" ++
           (if edge.type == EdgeType.implements then "dashed" else "solid") ++ "];")
       | _, _ => none) ++
     ["\x7d"])

/-- `CodeGenerationUseCase.generateCode` (src/index.tsx:130).  The
`language` parameter is a runtime string (the TypeScript union type does
not exist at runtime); the `switch` falls through to `throw` for any
identifier other than `typescript` and `python`, and the surrounding
`catch` re-wraps the message.  The structural `TypeError` guard on
`graph.nodes` cannot fire on a well-typed graph value and is omitted. -/
def generateCode (g : ArchitectureGraph) (language : String) (now : String) :
    Except String String :=
  if language = "typescript" then Except.ok (generateTypeScript g now)
  else if language = "python" then Except.ok (generatePython g now)
  else Except.error ("Code generation failed: Unsupported language: " ++ language)

/-- A chain of dependency steps: consecutive elements are related by the
adjacency function (`b ∈ adj a` for each step `a` to `b`). -/
def DepChain (adj : String → List String) : List String → Prop
  | [] => True
  | [_] => True
  | a :: b :: rest => b ∈ adj a ∧ DepChain adj (b :: rest)

/-- The dependency edges are acyclic: no chain leaves a node and returns
to it.  (`n :: p ++ [n]` is a chain of `p.length + 1 ≥ 1` edges from `n`
back to `n`; for `p = []` this is a self-loop.) -/
def NoDepCycle (adj : String → List String) : Prop :=
  ∀ (n : String) (p : List String), ¬ DepChain adj (n :: (p ++ [n]))

/-- A depth value is realized when some dependency chain has exactly
that many edges (a chain of `d` edges has `d + 1` nodes). -/
def Realizes (adj : String → List String) (d : Nat) : Prop :=
  ∃ p : List String, DepChain adj p ∧ p.length = d + 1

/-- The empty graph. -/
def emptyArchGraph : ArchitectureGraph := { nodes := [], edges := [] }

/-- Two correctly layered entity nodes joined by an `implements` edge
whose source is not an adapter and whose target is not a port. -/
def implEntityGraph : ArchitectureGraph :=
  { nodes :=
      [{ id := "n1", name := "Alpha", type := NodeType.entity, layer := LayerType.domain },
       { id := "n2", name := "Beta", type := NodeType.entity, layer := LayerType.domain }],
    edges :=
      [{ id := "i1", source := "n1", target := "n2", type := EdgeType.implements }] }

/-- One node with a dependency self-loop. -/
def selfLoopGraph : ArchitectureGraph :=
  { nodes :=
      [{ id := "A", name := "Alpha", type := NodeType.entity, layer := LayerType.domain }],
    edges :=
      [{ id := "s1", source := "A", target := "A", type := EdgeType.dependency }] }

/-- The self-loop edge of `selfLoopGraph`. -/
def selfLoopEdge : GraphEdge :=
  { id := "s1", source := "A", target := "A", type := EdgeType.dependency }

/-- An infrastructure-layer adapter with a dependency edge into an
application-layer use case. -/
def infraAppGraph : ArchitectureGraph :=
  { nodes :=
      [{ id := "a1", name := "StoreAdapter", type := NodeType.adapter,
         layer := LayerType.infrastructure },
       { id := "u1", name := "StoreUseCase", type := NodeType.usecase,
         layer := LayerType.application }],
    edges :=
      [{ id := "d1", source := "a1", target := "u1", type := EdgeType.dependency }] }

/-- The infrastructure-to-application dependency edge of `infraAppGraph`. -/
def infraAppEdge : GraphEdge :=
  { id := "d1", source := "a1", target := "u1", type := EdgeType.dependency }

/-- A use case with two outgoing dependency edges to two distinct ports,
in edge-list order `APort` then `BPort`. -/
def twoPortGraph : ArchitectureGraph :=
  { nodes :=
      [{ id := "u1", name := "RunUseCase", type := NodeType.usecase,
         layer := LayerType.application },
       { id := "p1", name := "APort", type := NodeType.port, layer := LayerType.domain },
       { id := "p2", name := "BPort", type := NodeType.port, layer := LayerType.domain }],
    edges :=
      [{ id := "d1", source := "u1", target := "p1", type := EdgeType.dependency },
       { id := "d2", source := "u1", target := "p2", type := EdgeType.dependency }] }

/-- The use-case node of `twoPortGraph`. -/
def twoPortUseCase : GraphNode :=
  { id := "u1", name := "RunUseCase", type := NodeType.usecase,
    layer := LayerType.application }

/-- A use case whose single outgoing dependency edge targets an entity,
not a port. -/
def entityDepGraph : ArchitectureGraph :=
  { nodes :=
      [{ id := "u1", name := "RunUseCase", type := NodeType.usecase,
         layer := LayerType.application },
       { id := "e1", name := "SomeEntity", type := NodeType.entity,
         layer := LayerType.domain }],
    edges :=
      [{ id := "d1", source := "u1", target := "e1", type := EdgeType.dependency }] }

/-- The use-case node of `entityDepGraph`. -/
def entityDepUseCase : GraphNode :=
  { id := "u1", name := "RunUseCase", type := NodeType.usecase,
    layer := LayerType.application }

/-- Nodes `A`, `B` (in that list order) with the dependency edge `A → B`. -/
def abGraph : ArchitectureGraph :=
  { nodes :=
      [{ id := "A", name := "Alpha", type := NodeType.entity, layer := LayerType.domain },
       { id := "B", name := "Beta", type := NodeType.entity, layer := LayerType.domain }],
    edges :=
      [{ id := "e1", source := "A", target := "B", type := EdgeType.dependency }] }

/-- The same node set and the same edge as `abGraph`, with the node list
in the opposite order `B`, `A`. -/
def baGraph : ArchitectureGraph :=
  { nodes :=
      [{ id := "B", name := "Beta", type := NodeType.entity, layer := LayerType.domain },
       { id := "A", name := "Alpha", type := NodeType.entity, layer := LayerType.domain }],
    edges :=
      [{ id := "e1", source := "A", target := "B", type := EdgeType.dependency }] }

/-- Nodes `A`, `B`, `C` with dependency edges `A → B`, `B → C`, `C → A`. -/
def abcCycleGraph : ArchitectureGraph :=
  { nodes :=
      [{ id := "A", name := "Alpha", type := NodeType.entity, layer := LayerType.domain },
       { id := "B", name := "Beta", type := NodeType.entity, layer := LayerType.domain },
       { id := "C", name := "Gamma", type := NodeType.entity, layer := LayerType.domain }],
    edges :=
      [{ id := "e1", source := "A", target := "B", type := EdgeType.dependency },
       { id := "e2", source := "B", target := "C", type := EdgeType.dependency },
       { id := "e3", source := "C", target := "A", type := EdgeType.dependency }] }

/-- A one-node, zero-edge graph (trivially a DAG). -/
def singleNodeGraph : ArchitectureGraph :=
  { nodes :=
      [{ id := "A", name := "Alpha", type := NodeType.entity, layer := LayerType.domain }],
    edges := [] }

/-- A node with an empty name (of a type with no suffix rule, correctly
layered, so no other check can mask the absent empty-name check). -/
def blankNameNode : GraphNode :=
  { id := "n1", name := "", type := NodeType.entity, layer := LayerType.domain }

/-- An entity node declaring layer `application` instead of its
canonical layer `domain`. -/
def mislayeredNode : GraphNode :=
  { id := "m1", name := "Thing", type := NodeType.entity,
    layer := LayerType.application }

/-- An edge-free graph containing only `mislayeredNode`. -/
def mislayeredGraph : ArchitectureGraph :=
  { nodes := [mislayeredNode], edges := [] }

/-- A port node with a bad name (does not end in "Port"): produces a
naming warning, used to witness facts about `validateNode` output. -/
def badPortNode : GraphNode :=
  { id := "p9", name := "PaymentGateway", type := NodeType.port,
    layer := LayerType.domain }

theorem depChain_nil (adj : String → List String) : DepChain adj [] := by
  simp [DepChain]

theorem depChain_single (adj : String → List String) (a : String) :
    DepChain adj [a] := by
  simp [DepChain]

theorem depChain_cons_cons (adj : String → List String) (a b : String)
    (l : List String) :
    DepChain adj (a :: b :: l) ↔ b ∈ adj a ∧ DepChain adj (b :: l) := by
  simp [DepChain]

theorem depChain_tail (adj : String → List String) (a : String)
    (l : List String) (h : DepChain adj (a :: l)) : DepChain adj l := by
  cases l with
  | nil => exact depChain_nil adj
  | cons b t => exact ((depChain_cons_cons adj a b t).mp h).2

theorem depChain_suffix (adj : String → List String) (l r : List String)
    (h : DepChain adj (l ++ r)) : DepChain adj r := by
  induction l with
  | nil => exact h
  | cons a l ih => exact ih (depChain_tail adj a (l ++ r) h)

theorem depChain_snoc (adj : String → List String) (l : List String)
    (x y : String) (h : DepChain adj (l ++ [x])) (hy : y ∈ adj x) :
    DepChain adj ((l ++ [x]) ++ [y]) := by
  induction l with
  | nil =>
    exact (depChain_cons_cons adj x y []).mpr ⟨hy, depChain_single adj y⟩
  | cons a l ih =>
    cases l with
    | nil =>
      have h1 := (depChain_cons_cons adj a x []).mp h
      exact (depChain_cons_cons adj a x [y]).mpr
        ⟨h1.1, (depChain_cons_cons adj x y []).mpr ⟨hy, depChain_single adj y⟩⟩
    | cons b t =>
      have h1 := (depChain_cons_cons adj a b (t ++ [x])).mp h
      exact (depChain_cons_cons adj a b ((t ++ [x]) ++ [y])).mpr
        ⟨h1.1, ih h1.2⟩

theorem string_append_cancel_left (a : String) {b c : String}
    (h : a ++ b = a ++ c) : b = c := by
  apply String.ext
  exact List.append_cancel_left (congrArg String.data h)

theorem string_append_cancel_right (c : String) {a b : String}
    (h : a ++ c = b ++ c) : a = b := by
  apply String.ext
  exact List.append_cancel_right (congrArg String.data h)

theorem adjOf_of_no_edges (g : ArchitectureGraph) (h : g.edges = [])
    (x : String) : adjOf g x = [] := by
  unfold adjOf
  rw [h]
  simp

theorem dfsCycles_cycles_of_noDepCycle (adj : String → List String)
    (hacy : NoDepCycle adj) (fuel : Nat) :
    ∀ (node : String) (path recStack : List String) (s : DfsState),
      (∀ x, x ∈ recStack → x ∈ path) →
      DepChain adj (path ++ [node]) →
      (dfsCycles adj fuel node path recStack s).cycles = s.cycles := by
  induction fuel with
  | zero =>
    intro node path recStack s _ _
    simp [dfsCycles]
  | succ fuel2 ih =>
    intro node path recStack s hrec hchain
    by_cases hmem : node ∈ recStack
    · obtain ⟨l1, l2, hpath⟩ := List.append_of_mem (hrec node hmem)
      subst hpath
      have hsuf : DepChain adj (node :: (l2 ++ [node])) := by
        apply depChain_suffix adj l1
        have heq : (l1 ++ node :: l2) ++ [node] = l1 ++ (node :: (l2 ++ [node])) := by
          simp
        rw [heq] at hchain
        exact hchain
      exact absurd hsuf (hacy node l2)
    · by_cases hvis : node ∈ s.visited
      · simp [dfsCycles, hmem, hvis]
      · have haux : ∀ (l : List String), (∀ nb ∈ l, nb ∈ adj node) →
            ∀ (acc : DfsState),
            (l.foldl (fun acc nb =>
              dfsCycles adj fuel2 nb (path ++ [node]) (node :: recStack) acc) acc).cycles
              = acc.cycles := by
          intro l
          induction l with
          | nil => intro _ acc; rfl
          | cons nb l ihl =>
            intro hl acc
            rw [List.foldl_cons]
            rw [ihl (fun x hx => hl x (List.mem_cons_of_mem _ hx))]
            apply ih nb (path ++ [node]) (node :: recStack) acc
            · intro x hx
              rcases List.mem_cons.mp hx with hx | hx
              · subst hx; exact List.mem_append_right _ (List.mem_singleton.mpr rfl)
              · exact List.mem_append_left _ (hrec x hx)
            · exact depChain_snoc adj path node nb hchain (hl nb (List.mem_cons_self _ _))
        simp only [dfsCycles, if_neg hmem, if_neg hvis]
        exact haux (adj node) (fun _ h => h) _

theorem detectCycles_of_noDepCycle (g : ArchitectureGraph)
    (hacy : NoDepCycle (adjOf g)) : detectCycles g = [] := by
  unfold detectCycles
  have haux : ∀ (fuel : Nat) (ns : List GraphNode) (s : DfsState),
      (ns.foldl (fun s n =>
        if n.id ∈ s.visited then s else dfsCycles (adjOf g) fuel n.id [] [] s) s).cycles
        = s.cycles := by
    intro fuel ns
    induction ns with
    | nil => intro s; rfl
    | cons n ns ihn =>
      intro s
      rw [List.foldl_cons]
      rw [ihn]
      by_cases hvis : n.id ∈ s.visited
      · simp [hvis]
      · simp only [if_neg hvis]
        apply dfsCycles_cycles_of_noDepCycle (adjOf g) hacy fuel n.id [] [] s
        · intro x hx; exact absurd hx (List.not_mem_nil x)
        · exact depChain_single (adjOf g) n.id
  exact haux _ _ _

theorem dfsDepth_realizes (adj : String → List String) (fuel : Nat) :
    ∀ (node : String) (depth : Nat) (s : DepthState),
      (∃ p : List String, DepChain adj (p ++ [node]) ∧ p.length = depth) →
      Realizes adj s.maxDepth →
      Realizes adj (dfsDepth adj fuel node depth s).maxDepth := by
  induction fuel with
  | zero =>
    intro node depth s _ hs
    simpa [dfsDepth] using hs
  | succ fuel2 ih =>
    intro node depth s hnode hs
    by_cases hvis : node ∈ s.visited
    · simpa [dfsDepth, hvis] using hs
    · obtain ⟨p, hchain, hlen⟩ := hnode
      have hmax : Realizes adj (max s.maxDepth depth) := by
        rcases max_choice s.maxDepth depth with heq | heq
        · rw [heq]; exact hs
        · rw [heq]
          exact ⟨p ++ [node], hchain, by simp [hlen]⟩
      have haux : ∀ (l : List String), (∀ nb ∈ l, nb ∈ adj node) →
          ∀ (acc : DepthState), Realizes adj acc.maxDepth →
          Realizes adj ((l.foldl (fun acc nb =>
            dfsDepth adj fuel2 nb (depth + 1) acc) acc).maxDepth) := by
        intro l
        induction l with
        | nil => intro _ acc hacc; exact hacc
        | cons nb l ihl =>
          intro hl acc hacc
          rw [List.foldl_cons]
          apply ihl (fun x hx => hl x (List.mem_cons_of_mem _ hx))
          apply ih nb (depth + 1) acc
          · refine ⟨p ++ [node], ?_, by simp [hlen]⟩
            exact depChain_snoc adj p node nb hchain (hl nb (List.mem_cons_self _ _))
          · exact hacc
      simp only [dfsDepth, if_neg hvis]
      exact haux (adj node) (fun _ h => h) _ hmax

theorem calculateMaxDepth_realized (g : ArchitectureGraph) :
    Realizes (adjOf g) (calculateMaxDepth g) := by
  unfold calculateMaxDepth
  have haux : ∀ (fuel : Nat) (ns : List GraphNode) (s : DepthState),
      Realizes (adjOf g) s.maxDepth →
      Realizes (adjOf g) ((ns.foldl (fun s n =>
        if n.id ∈ s.visited then s else dfsDepth (adjOf g) fuel n.id 0 s) s).maxDepth) := by
    intro fuel ns
    induction ns with
    | nil => intro s hs; exact hs
    | cons n ns ihn =>
      intro s hs
      rw [List.foldl_cons]
      apply ihn
      by_cases hvis : n.id ∈ s.visited
      · simpa [hvis] using hs
      · simp only [if_neg hvis]
        apply dfsDepth_realizes (adjOf g) fuel n.id 0 s
        · exact ⟨[], depChain_single (adjOf g) n.id, rfl⟩
        · exact hs
  apply haux
  exact ⟨["r"], depChain_single (adjOf g) "r", rfl⟩

theorem validateNode_shape (n : GraphNode) (e : ValidationError)
    (h : e ∈ validateNode n) :
    e.edgeId = none ∧
      (e.type = ErrorType.naming_violation ∨ e.type = ErrorType.layer_violation) := by
  have hone : ∀ (c : Prop) (inst : Decidable c) (x : ValidationError),
      e ∈ (@ite _ c inst [x] []) → e = x := by
    intro c inst x hh
    by_cases hc : c
    · rw [if_pos hc] at hh; simpa using hh
    · rw [if_neg hc] at hh; simp at hh
  unfold validateNode at h
  simp only [List.mem_append] at h
  rcases h with ((h | h) | h) | h <;> rw [hone _ _ _ h] <;> simp

theorem checkLayerViolations_mem (g : ArchitectureGraph) (v : ValidationError)
    (h : v ∈ checkLayerViolations g) :
    v.type = ErrorType.layer_violation ∧ v.severity = Severity.error ∧
      ∃ e ∈ g.edges, e.type = EdgeType.dependency ∧ v.edgeId = some e.id := by
  unfold checkLayerViolations at h
  obtain ⟨e, he, heq⟩ := List.mem_filterMap.mp h
  unfold edgeLayerViolation at heq
  split_ifs at heq with h1
  have hdep : e.type = EdgeType.dependency := by
    simpa using h1
  split at heq
  next src dst _ _ =>
    split_ifs at heq
    simp only [Option.some.injEq] at heq
    subst heq
    exact ⟨rfl, rfl, e, he, hdep, rfl⟩
  next => simp at heq

theorem cycleErrors_mem (g : ArchitectureGraph) (err : ValidationError)
    (h : err ∈ cycleErrors g) :
    err.type = ErrorType.circular_dependency ∧ err.edgeId = none := by
  unfold cycleErrors at h
  obtain ⟨pair, _, heq⟩ := List.mem_map.mp h
  subst heq
  exact ⟨rfl, rfl⟩

theorem selfLoopErrors_mem (g : ArchitectureGraph) (err : ValidationError)
    (h : err ∈ selfLoopErrors g) :
    err.type = ErrorType.validation_error ∧
      ∃ e ∈ g.edges, e.source = e.target ∧ err.edgeId = some e.id := by
  unfold selfLoopErrors at h
  obtain ⟨e, he, heq⟩ := List.mem_filterMap.mp h
  unfold selfLoopCheck at heq
  split_ifs at heq with h1
  simp only [Option.some.injEq] at heq
  subst heq
  exact ⟨rfl, e, he, by simpa using h1, rfl⟩

theorem validateGraph_errors_decomp (g : ArchitectureGraph) :
    (validateGraph g).errors =
      (checkLayerViolations g).filter (fun v => v.severity == Severity.error) ++
      cycleErrors g ++
      ((g.nodes.map validateNode).map
        (fun l => l.filter (fun e => e.severity == Severity.error))).flatten ++
      selfLoopErrors g := rfl

theorem nodeErrors_mem (g : ArchitectureGraph) (err : ValidationError)
    (h : err ∈ ((g.nodes.map validateNode).map
      (fun l => l.filter (fun e => e.severity == Severity.error))).flatten) :
    err.edgeId = none ∧
      (err.type = ErrorType.naming_violation ∨ err.type = ErrorType.layer_violation) := by
  obtain ⟨l, hl, herr⟩ := List.mem_flatten.mp h
  obtain ⟨l2, hl2, hfe⟩ := List.mem_map.mp hl
  obtain ⟨n, _, hn⟩ := List.mem_map.mp hl2
  subst hn
  subst hfe
  exact validateNode_shape n err (List.mem_filter.mp herr).1

theorem implements_edges_never_flagged (g : ArchitectureGraph) (eid : String)
    (hyp : ∀ e ∈ g.edges, e.id = eid →
      e.type = EdgeType.implements ∧ e.source ≠ e.target) :
    errorsForEdge g eid = [] := by
  unfold errorsForEdge
  rw [validateGraph_errors_decomp, List.filter_append, List.filter_append,
    List.filter_append]
  have p1 : ((checkLayerViolations g).filter
      (fun v => v.severity == Severity.error)).filter
      (fun err => err.edgeId == some eid) = [] := by
    rw [List.filter_eq_nil_iff]
    intro v hv hpred
    obtain ⟨_, _, e, he, hdep, hedge⟩ :=
      checkLayerViolations_mem g v (List.mem_filter.mp hv).1
    rw [hedge] at hpred
    have hid : e.id = eid := by simpa using hpred
    have := (hyp e he hid).1
    rw [hdep] at this
    exact absurd this (by simp)
  have p2 : (cycleErrors g).filter (fun err => err.edgeId == some eid) = [] := by
    rw [List.filter_eq_nil_iff]
    intro v hv hpred
    rw [(cycleErrors_mem g v hv).2] at hpred
    simp at hpred
  have p3 : (((g.nodes.map validateNode).map
      (fun l => l.filter (fun e => e.severity == Severity.error))).flatten).filter
      (fun err => err.edgeId == some eid) = [] := by
    rw [List.filter_eq_nil_iff]
    intro v hv hpred
    rw [(nodeErrors_mem g v hv).1] at hpred
    simp at hpred
  have p4 : (selfLoopErrors g).filter (fun err => err.edgeId == some eid) = [] := by
    rw [List.filter_eq_nil_iff]
    intro v hv hpred
    obtain ⟨_, e, he, hself, hedge⟩ := selfLoopErrors_mem g v hv
    rw [hedge] at hpred
    have hid : e.id = eid := by simpa using hpred
    exact absurd hself (hyp e he hid).2
  rw [p1, p2, p3, p4]
  rfl

theorem selfLoop_filter_count (l : List GraphEdge) (eid : String) :
    ((l.filterMap selfLoopCheck).filter
      (fun err => err.type == ErrorType.validation_error && err.edgeId == some eid)).length
    = (l.filter (fun e2 => e2.source == e2.target && e2.id == eid)).length := by
  induction l with
  | nil => rfl
  | cons e l ih =>
    by_cases hself : (e.source == e.target) = true
    · by_cases hid : (e.id == eid) = true
      · simp [List.filterMap_cons, selfLoopCheck, hself, hid, List.filter_cons, ih]
      · simp [List.filterMap_cons, selfLoopCheck, hself, hid, List.filter_cons, ih]
    · simp [List.filterMap_cons, selfLoopCheck, hself, List.filter_cons, ih]

theorem selfloop_once_general (g : ArchitectureGraph) (e : GraphEdge)
    (he : e ∈ g.edges) (hself : e.source = e.target)
    (huniq : (g.edges.filter (fun e2 => e2.id == e.id)).length = 1) :
    ((validateGraph g).errors.filter
      (fun err => err.type == ErrorType.validation_error &&
        err.edgeId == some e.id)).length = 1 := by
  rw [validateGraph_errors_decomp, List.filter_append, List.filter_append,
    List.filter_append]
  have p1 : ((checkLayerViolations g).filter
      (fun v => v.severity == Severity.error)).filter
      (fun err => err.type == ErrorType.validation_error &&
        err.edgeId == some e.id) = [] := by
    rw [List.filter_eq_nil_iff]
    intro v hv hpred
    have htype := (checkLayerViolations_mem g v (List.mem_filter.mp hv).1).1
    rw [htype] at hpred
    simp at hpred
  have p2 : (cycleErrors g).filter
      (fun err => err.type == ErrorType.validation_error &&
        err.edgeId == some e.id) = [] := by
    rw [List.filter_eq_nil_iff]
    intro v hv hpred
    rw [(cycleErrors_mem g v hv).1] at hpred
    simp at hpred
  have p3 : (((g.nodes.map validateNode).map
      (fun l => l.filter (fun e2 => e2.severity == Severity.error))).flatten).filter
      (fun err => err.type == ErrorType.validation_error &&
        err.edgeId == some e.id) = [] := by
    rw [List.filter_eq_nil_iff]
    intro v hv hpred
    rcases (nodeErrors_mem g v hv).2 with htype | htype <;>
      rw [htype] at hpred <;> simp at hpred
  rw [p1, p2, p3]
  simp only [List.nil_append, List.length_append, List.length_nil, Nat.zero_add]
  unfold selfLoopErrors
  rw [selfLoop_filter_count]
  have hq : g.edges.filter (fun e2 => e2.id == e.id) = [e] := by
    obtain ⟨x, hx⟩ := List.length_eq_one.mp huniq
    have hmem : e ∈ g.edges.filter (fun e2 => e2.id == e.id) :=
      List.mem_filter.mpr ⟨he, by simp⟩
    rw [hx] at hmem ⊢
    simp at hmem
    rw [hmem]
  rw [← List.filter_filter, hq]
  simp [hself]

theorem generateTypeScript_eq_iff (g : ArchitectureGraph) (t1 t2 : String) :
    generateTypeScript g t1 = generateTypeScript g t2 ↔ t1 = t2 := by
  constructor
  · intro h
    unfold generateTypeScript at h
    simp only [joinSep] at h
    have h2 := string_append_cancel_left _ h
    have h3 := string_append_cancel_right _ h2
    have h4 := string_append_cancel_right _ h3
    exact string_append_cancel_left _ h4
  · intro h
    rw [h]

theorem generatePython_eq_iff (g : ArchitectureGraph) (t1 t2 : String) :
    generatePython g t1 = generatePython g t2 ↔ t1 = t2 := by
  constructor
  · intro h
    unfold generatePython at h
    simp only [joinSep] at h
    have h2 := string_append_cancel_left _ h
    have h3 := string_append_cancel_right _ h2
    have h4 := string_append_cancel_right _ h3
    exact string_append_cancel_left _ h4
  · intro h
    rw [h]

theorem useCaseDeps_eq_spec_of_ports (g : ArchitectureGraph) (u : GraphNode)
    (hports : ∀ n ∈ getUseCaseDependencies u g, n.type = NodeType.port) :
    getUseCaseDependencies u g = specUseCasePortDeps u g := by
  unfold getUseCaseDependencies at hports ⊢
  unfold specUseCasePortDeps
  have haux : ∀ (l : List GraphEdge),
      (∀ n ∈ l.filterMap (fun e => findNode g e.target), n.type = NodeType.port) →
      l.filterMap (fun e => findNode g e.target) =
      l.filterMap (fun e =>
        match findNode g e.target with
        | some n => if n.type == NodeType.port then some n else none
        | none => none) := by
    intro l
    induction l with
    | nil => intro _; rfl
    | cons e l ih =>
      intro hl
      rw [List.filterMap_cons, List.filterMap_cons]
      cases hfn : findNode g e.target with
      | none =>
        simp only [hfn]
        apply ih
        intro n hn
        apply hl
        rw [List.filterMap_cons, hfn]
        exact hn
      | some n =>
        have hn : n.type = NodeType.port := by
          apply hl
          rw [List.filterMap_cons, hfn]
          exact List.mem_cons_self _ _
        simp only [hfn]
        rw [if_pos (by simp [hn])]
        have ihr := ih (by
          intro m hm
          apply hl
          rw [List.filterMap_cons, hfn]
          exact List.mem_cons_of_mem _ hm)
        rw [ihr]
  exact haux _ hports

theorem noDepCycle_of_no_edges (g : ArchitectureGraph) (h : g.edges = []) :
    NoDepCycle (adjOf g) := by
  intro n p hch
  cases p with
  | nil =>
    have h1 : n ∈ adjOf g n := hch.1
    rw [adjOf_of_no_edges g h] at h1
    exact absurd h1 (List.not_mem_nil n)
  | cons a p =>
    have h1 : a ∈ adjOf g n := hch.1
    rw [adjOf_of_no_edges g h] at h1
    exact absurd h1 (List.not_mem_nil a)

/-- C1 counterexample: the claim "calling generate twice on the same
graph value returns byte-identical strings" is false as stated: the
TypeScript generator embeds the wall-clock timestamp it reads during the
call, so two calls of `generate(graph, 'typescript')` on the same graph
that observe different clock values return different strings. -/
theorem c1_counterexample :
    generateTypeScript emptyArchGraph "2024-01-01T00:00:00.000Z" ≠
      generateTypeScript emptyArchGraph "2024-01-01T00:00:00.001Z" := by
  decide

/-- C1 (corrected): the output of the TypeScript and Python generators
is a pure function of the graph and the clock string read during the
call, and two calls on the same graph agree exactly when they observe
the same clock value; the timestamp is the only source of difference. -/
theorem c1_generate_deterministic_up_to_timestamp
    (g : ArchitectureGraph) (t1 t2 : String) :
    (generateTypeScript g t1 = generateTypeScript g t2 ↔ t1 = t2) ∧
    (generatePython g t1 = generatePython g t2 ↔ t1 = t2) :=
  ⟨generateTypeScript_eq_iff g t1 t2, generatePython_eq_iff g t1 t2⟩

/-- C2 counterexample: an `implements` edge whose source is an entity
(not an adapter) and whose target is an entity (not a port) yields no
validation error at all: the full validation pass returns an empty error
list on `implEntityGraph`. -/
theorem c2_counterexample : (validateGraph implEntityGraph).errors = [] := by
  decide

/-- C2 (corrected): `validateGraph` performs no adapter-to-port check on
`implements` edges.  For every graph and every edge id carried only by
non-self-loop `implements` edges, the full validation pass emits no
error naming that edge, regardless of the endpoint node types (so an
adapter-to-port `implements` edge also never yields one). -/
theorem c2_implements_edges_never_flagged (g : ArchitectureGraph) (eid : String)
    (hyp : ∀ e ∈ g.edges, e.id = eid →
      e.type = EdgeType.implements ∧ e.source ≠ e.target) :
    errorsForEdge g eid = [] :=
  implements_edges_never_flagged g eid hyp

/-- C2 witness: the hypotheses hold for edge id `i1` of `implEntityGraph`,
and the theorem yields that no error names that edge. -/
theorem c2_witness : errorsForEdge implEntityGraph "i1" = [] :=
  c2_implements_edges_never_flagged implEntityGraph "i1" (by decide)

/-- C3 counterexample: a dependency self-loop does appear inside a
reported cycle: on the one-node graph with the self-loop edge `A → A`,
`detectCycles` returns exactly the cycle `[A, A]`, which is the
self-loop itself. -/
theorem c3_counterexample : detectCycles selfLoopGraph = [["A", "A"]] := by
  decide

/-- C3 (corrected): a dependency self-loop IS reported by `detectCycles`
as the two-element cycle `[n, n]` (second conjunct, on the witness
graph), and in addition the full validation pass reports exactly one
error of type `validation_error` naming the self-loop edge, for every
graph in which that edge id is carried by exactly one edge (first
conjunct). -/
theorem c3_selfloop_cycle_and_single_validation_error :
    (∀ (g : ArchitectureGraph) (e : GraphEdge), e ∈ g.edges →
      e.source = e.target →
      (g.edges.filter (fun e2 => e2.id == e.id)).length = 1 →
      ((validateGraph g).errors.filter
        (fun err => err.type == ErrorType.validation_error &&
          err.edgeId == some e.id)).length = 1) ∧
    detectCycles selfLoopGraph = [["A", "A"]] :=
  ⟨fun g e he hself huniq => selfloop_once_general g e he hself huniq, by decide⟩

/-- C3 witness: applied to the self-loop edge `s1` of `selfLoopGraph`,
whose hypotheses hold by evaluation. -/
theorem c3_witness :
    ((validateGraph selfLoopGraph).errors.filter
      (fun err => err.type == ErrorType.validation_error &&
        err.edgeId == some "s1")).length = 1 :=
  c3_selfloop_cycle_and_single_validation_error.1 selfLoopGraph selfLoopEdge
    (by decide) (by decide) (by decide)

/-- C4 counterexample: the layer-validation pass emits no error at all
on a graph whose only edge is a dependency from an infrastructure-layer
adapter to an application-layer use case, so such an edge does not
produce a `layer_violation`. -/
theorem c4_counterexample : checkLayerViolations infraAppGraph = [] := by
  decide

/-- C4 (corrected): the code's allowed-dependency table lets
infrastructure depend on both domain and application: a dependency edge
whose resolved source node is in the infrastructure layer and whose
resolved target node is in the application layer contributes no layer
violation. -/
theorem c4_infrastructure_may_depend_on_application
    (g : ArchitectureGraph) (e : GraphEdge) (src dst : GraphNode)
    (htyp : e.type = EdgeType.dependency)
    (hsrc : findNode g e.source = some src)
    (hdst : findNode g e.target = some dst)
    (hsl : src.layer = LayerType.infrastructure)
    (hdl : dst.layer = LayerType.application) :
    edgeLayerViolation g e = none := by
  simp [edgeLayerViolation, htyp, hsrc, hdst, hsl, hdl, allowedDeps]

/-- C4 witness: applied to the infrastructure-to-application dependency
edge `d1` of `infraAppGraph`. -/
theorem c4_witness : edgeLayerViolation infraAppGraph infraAppEdge = none :=
  c4_infrastructure_may_depend_on_application infraAppGraph infraAppEdge
    { id := "a1", name := "StoreAdapter", type := NodeType.adapter,
      layer := LayerType.infrastructure }
    { id := "u1", name := "StoreUseCase", type := NodeType.usecase,
      layer := LayerType.application }
    (by decide) (by decide) (by decide) (by decide) (by decide)

/-- C5 counterexample: a use case whose only outgoing dependency edge
targets an entity still gets a constructor parameter for it, so the
generated constructor parameters are not "exactly the port-typed
dependency targets": the parameter list names the entity while the
spec's port-only list is empty. -/
theorem c5_counterexample :
    useCaseConstructorParams entityDepUseCase entityDepGraph =
      "private someEntity: SomeEntity" ∧
    specUseCasePortDeps entityDepUseCase entityDepGraph = [] := by
  constructor
  · decide
  · decide

/-- C5 (corrected): the generated use-case constructor parameters are
the existing target nodes of the use case's outgoing `dependency`
edges, in edge-list order, with no filtering by node type; this
coincides with the spec's port-only list whenever every such target is
a port (first conjunct), and in particular the use case of
`twoPortGraph`, with two outgoing dependency edges to two distinct
ports, gets exactly the two parameters in edge-list order (second
conjunct). -/
theorem c5_usecase_constructor_params :
    (∀ (g : ArchitectureGraph) (u : GraphNode),
      (∀ n ∈ getUseCaseDependencies u g, n.type = NodeType.port) →
      getUseCaseDependencies u g = specUseCasePortDeps u g) ∧
    useCaseConstructorParams twoPortUseCase twoPortGraph =
      "private aPort: APort, private bPort: BPort" :=
  ⟨fun g u hports => useCaseDeps_eq_spec_of_ports g u hports, by decide⟩

/-- C5 witness: on `twoPortGraph` every dependency target of the use
case is a port, and the computed dependency list agrees with the spec's
port-only list. -/
theorem c5_witness :
    getUseCaseDependencies twoPortUseCase twoPortGraph =
      specUseCasePortDeps twoPortUseCase twoPortGraph :=
  c5_usecase_constructor_params.1 twoPortGraph twoPortUseCase (by decide)

/-- C6 counterexample: `maxDepth` is not the longest dependency chain
and depends on the node-list order: `abGraph` and `baGraph` have the
same nodes and the same single dependency edge `A → B` (a longest chain
of one edge, exhibited by the chain `[A, B]`), yet the metric is 1 for
node order `A, B` and 0 for node order `B, A`. -/
theorem c6_counterexample :
    calculateMaxDepth abGraph = 1 ∧ calculateMaxDepth baGraph = 0 ∧
      DepChain (adjOf baGraph) ["A", "B"] := by
  refine ⟨by decide, by decide, ⟨?_, trivial⟩⟩
  decide

/-- C6 (corrected): the `maxDepth` metric is always realized by an
actual dependency chain — for every graph some chain following only
`dependency` edges has exactly `maxDepth` edges, so the metric never
exceeds the longest chain — but it can undercount the longest chain and
varies with node-list order. -/
theorem c6_maxDepth_realized_by_chain (g : ArchitectureGraph) :
    ∃ p : List String, DepChain (adjOf g) p ∧
      p.length = calculateMaxDepth g + 1 :=
  calculateMaxDepth_realized g

/-- C7 counterexample: `generateCode` does not return generated text for
the target `dependency-graph`; it falls through to the unsupported-
language throw (re-wrapped by the catch), so code generation throws on a
target the claim lists as supported. -/
theorem c7_counterexample :
    generateCode emptyArchGraph "dependency-graph" "T" =
      Except.error "Code generation failed: Unsupported language: dependency-graph" := by
  rfl

/-- C7 (corrected): `generateCode` succeeds exactly for the language
identifiers `typescript` and `python` — any other identifier, including
`dependency-graph`, makes it throw (first conjunct) — and generation is
not gated on validity: on any graph whose validation result is invalid,
TypeScript generation still returns text (second conjunct).  DOT output
exists only as the adapter method `generateDependencyGraph`, which is
not reachable through `generateCode`. -/
theorem c7_generateCode_supported_languages
    (g : ArchitectureGraph) (language now : String) :
    ((∃ s, generateCode g language now = Except.ok s) ↔
      language = "typescript" ∨ language = "python") ∧
    ((validateGraph g).isValid = false →
      ∃ s, generateCode g "typescript" now = Except.ok s) := by
  constructor
  · unfold generateCode
    by_cases h1 : language = "typescript"
    · simp [h1]
    · by_cases h2 : language = "python"
      · simp [h1, h2]
      · simp [h1, h2]
  · intro _
    exact ⟨generateTypeScript g now, by simp [generateCode]⟩

/-- C7 witness: `selfLoopGraph` fails validation, yet TypeScript
generation on it succeeds. -/
theorem c7_witness :
    ∃ s, generateCode selfLoopGraph "typescript" "T" = Except.ok s :=
  (c7_generateCode_supported_languages selfLoopGraph "typescript" "T").2 (by decide)

/-- C8 counterexample: a node with an empty name (entity type, correct
layer) passes `validateNode` with no errors at all, so an empty/blank
name does not yield a `validation_error`. -/
theorem c8_counterexample : validateNode blankNameNode = [] := by
  decide

/-- C8 (corrected): `validateNode` contains no emptiness check on names
and in fact never returns an error of type `validation_error` for any
node: its output holds only `naming_violation` warnings and the
`layer_violation` consistency error. -/
theorem c8_validateNode_never_validation_error (node : GraphNode) :
    (validateNode node).all (fun e => e.type != ErrorType.validation_error) = true := by
  rw [List.all_eq_true]
  intro e he
  rcases (validateNode_shape node e he).2 with h | h <;> simp [h]

/-- C9 (confirmed): on every graph whose dependency edges admit no
cycle chain, `detectCycles` returns the empty list (first conjunct),
and on the three-node cycle `A → B → C → A` it returns exactly the one
cycle `[A, B, C, A]` (second conjunct). -/
theorem c9_detectCycles_dag_and_triangle :
    (∀ g : ArchitectureGraph, NoDepCycle (adjOf g) → detectCycles g = []) ∧
    detectCycles abcCycleGraph = [["A", "B", "C", "A"]] :=
  ⟨fun g hacy => detectCycles_of_noDepCycle g hacy, by decide⟩

/-- C9 witness: the one-node edge-free graph is acyclic and the theorem
yields an empty cycle list for it. -/
theorem c9_witness : detectCycles singleNodeGraph = [] :=
  c9_detectCycles_dag_and_triangle.1 singleNodeGraph
    (noDepCycle_of_no_edges singleNodeGraph rfl)

/-- C10 (confirmed): a node whose declared layer differs from the
canonical layer of its type makes `validateNode` emit an error of type
`layer_violation` with severity error (first conjunct); the metrics
field `layerViolations` counts exactly the `layer_violation`-typed
errors of the full validation pass (second conjunct); and the edge-free
graph `mislayeredGraph` nevertheless has `layerViolations = 1` (third
conjunct). -/
theorem c10_layer_mismatch_counted_in_metrics :
    (∀ node : GraphNode, node.layer ≠ getExpectedLayer node.type →
      (validateNode node).any
        (fun e => e.type == ErrorType.layer_violation &&
          e.severity == Severity.error) = true) ∧
    (∀ g : ArchitectureGraph, (calculateMetrics g).layerViolations =
      ((validateGraph g).errors.filter
        (fun e => e.type == ErrorType.layer_violation)).length) ∧
    (mislayeredGraph.edges = [] ∧
      (calculateMetrics mislayeredGraph).layerViolations = 1) := by
  refine ⟨?_, fun g => rfl, rfl, by decide⟩
  intro node h
  rw [List.any_eq_true]
  have hmem : ({ id := "layer_consistency_" ++ node.id,
                 type := ErrorType.layer_violation,
                 message := node.type.str ++ " should be in " ++
                   (getExpectedLayer node.type).str ++ " layer, not " ++ node.layer.str,
                 nodeId := some node.id,
                 severity := Severity.error } : ValidationError) ∈ validateNode node := by
    unfold validateNode
    apply List.mem_append_right
    rw [if_pos (by simp [h])]
    exact List.mem_singleton.mpr rfl
  exact ⟨_, hmem, by simp⟩

/-- C10 witness: applied to `mislayeredNode`, whose declared layer
`application` differs from the canonical layer `domain` of entities. -/
theorem c10_witness :
    (validateNode mislayeredNode).any
      (fun e => e.type == ErrorType.layer_violation &&
        e.severity == Severity.error) = true :=
  c10_layer_mismatch_counted_in_metrics.1 mislayeredNode (by decide)
